import Mathlib

/-!
Verification of the `proletarian` worker pool (Go package, `pool.go`)
against its natural-language specification.

The development shallowly embeds the parts of `pool.go` the claims are
about:

* `TaskHeader` with its methods `SetError`, `ErrorCount`, `Err`,
  `Unwrap` (pool.go lines 35-61); Go `error` values are modelled as
  `Option ε` (`none` = Go `nil`), the `retries` counter as `Int`
  (a Go `int` that is only ever incremented; overflow is irrelevant to
  the claims considered here).

* The per-task part of the worker loop `pool.worker` (pool.go lines
  214-252).  Attempts on a single task are strictly sequential (a task
  sits in exactly one queue or one worker at a time), so the succession
  of attempts of one task is a sequential loop: run `p.f task`, record
  the error with `SetError`, on success the task is terminal, on failure
  (cancellation not fired) compare `task.ErrorCount() >= p.cfg.Retries`
  and either hand the task to the error channel (terminal) or resubmit
  it to the worker queue for another attempt.  The user function is
  modelled as a map from the attempt index to its result, and the loop
  is given explicit fuel because for some configurations it does not
  terminate.

* Configuration normalization in `NewPool` (pool.go lines 124-148) and
  the Go runtime behaviour of `make(chan T, n)` (panics for `n < 0`).

* The sequential state of the `pool` struct acted on by `Queue` and
  `Shutdown` (pool.go lines 104-121, 173-194), and a small-step
  transition system for the lock/counter behaviour relevant to `Wait`
  (pool.go lines 150-170, 184-194, 207-212).
-/

namespace Proletarian

/-! ## TaskHeader (pool.go lines 35-61) -/

/-- Struct `TaskHeader` (pool.go lines 35-38): `retries int; err error`.
Go `error` is modelled as `Option ε`, `nil` as `none`. -/
structure TaskHeader (ε : Type) where
  retries : Int
  err : Option ε
deriving Repr, DecidableEq

/-- A freshly constructed `TaskHeader` (Go zero value: `retries = 0`,
`err = nil`). -/
def TaskHeader.new (ε : Type) : TaskHeader ε := { retries := 0, err := none }

/-- Method `SetError` of `*TaskHeader` (pool.go lines 41-47):
`t.err = err; if err != nil { t.retries++ }`. -/
def TaskHeader.SetError (t : TaskHeader ε) (e : Option ε) : TaskHeader ε :=
  { t with
    err := e
    retries := if e.isSome then t.retries + 1 else t.retries }

/-- Method `ErrorCount` of `*TaskHeader` (pool.go lines 50-52): `return t.retries`. -/
def TaskHeader.ErrorCount (t : TaskHeader ε) : Int := t.retries

/-- Method `Err` of `*TaskHeader` (pool.go lines 55-57): `return t.err`. -/
def TaskHeader.Err (t : TaskHeader ε) : Option ε := t.err

/-- Method `Unwrap` of `*TaskHeader` (pool.go lines 59-61): `return t.err`. -/
def TaskHeader.Unwrap (t : TaskHeader ε) : Option ε := t.err

/-! ## Per-task worker loop (pool.go lines 214-252)

`Outcome` is the terminal fate of one task under the worker loop:
either the success branch (pool.go lines 246-249, `inflightWG.Done`)
or delivery to the error channel `errCh` (pool.go lines 227-234). -/

/-- Terminal fate of a task in `pool.worker`, carrying the task state
at that point. -/
inductive Outcome (ε : Type) where
  | success (t : TaskHeader ε)
  | errored (t : TaskHeader ε)
deriving Repr, DecidableEq

/-- One whole life of a task inside `pool.worker` (pool.go lines
217-251), cancellation not fired (the `select` at lines 223-225 takes
its `default` branch).  `f n` is the result of `p.f task` on the task's
`n`-th attempt (0-based); `retriesCfg` is `p.cfg.Retries`.  Each
iteration performs `err := p.f task; task.SetError(err)`; if `err` is
`nil` the task is terminal-success; otherwise, since
`task.ErrorCount() >= p.cfg.Retries` decides between the error-channel
handoff (lines 227-234) and the resubmission to `workersQ`
(lines 237-243), the loop either stops with `Outcome.errored` or
recurses on the next attempt.  `fuel` bounds the number of attempts;
`none` means the loop did not reach a terminal outcome within `fuel`
attempts. -/
def runTaskFuel (retriesCfg : Int) (f : Nat → Option ε) :
    Nat → Nat → TaskHeader ε → Option (Outcome ε)
  | 0, _, _ => none
  | fuel + 1, n, t =>
    let e := f n
    let t' := t.SetError e
    match e with
    | none => some (Outcome.success t')
    | some _ =>
      if t'.ErrorCount ≥ retriesCfg then some (Outcome.errored t')
      else runTaskFuel retriesCfg f fuel (n + 1) t'

/-! ## Configuration and pool construction (pool.go lines 63-76, 124-148) -/

/-- Struct `PoolConfig` (pool.go lines 64-76), without the `Func` field (the
user function is passed separately to the models that need it).  All
three fields are Go `int`s. -/
structure PoolConfig where
  LobbySize : Int
  Size : Int
  Retries : Int
deriving Repr, DecidableEq

/-- The normalization `NewPool` applies to its configuration argument
(pool.go lines 125-133), in source order: `if cfg.Size < 1`, then
`if cfg.Size > runtime.GOMAXPROCS(0)*32`, then `if cfg.Retries < -1`.
`maxprocs` stands for `runtime.GOMAXPROCS(0)` (always ≥ 1 in Go). -/
def normalizeConfig (maxprocs : Int) (cfg : PoolConfig) : PoolConfig :=
  let cfg := if cfg.Size < 1 then { cfg with Size := 1 } else cfg
  let cfg := if cfg.Size > maxprocs * 32 then { cfg with Size := maxprocs * 32 } else cfg
  if cfg.Retries < -1 then { cfg with Retries := -1 } else cfg

/-- Go `make(chan T, n)`: panics (`makechan: size out of range`) when
`n < 0`, otherwise yields an empty channel buffer.  The panic is
modelled as `none`. -/
def makeChan (capacity : Int) : Option (List Nat) :=
  if capacity < 0 then none else some []

/-- The sequential state of the `pool` struct (pool.go lines 104-121)
as seen by `Queue` and `Shutdown`.  `inputQ = none` models the field
being `nil` (it is set to `nil` in `Shutdown`, pool.go line 187, and in
the lobby goroutine, line 156); `some buf` models an open channel with
buffered contents `buf` (tasks as numeric ids).  `workersQClosed` /
`errChClosed` record `close(p.workersQ)` / `close(p.errCh)`.
`shutdownDone` is the fired state of `p.shutdownOnce`.  `inQ`,
`inFlight` are the atomic counters and `inflightWG` the value of the
in-flight waitgroup. -/
structure PoolState where
  inputQ : Option (List Nat)
  workersQClosed : Bool
  errChClosed : Bool
  shutdownDone : Bool
  inQ : Int
  inFlight : Int
  inflightWG : Int
  cfg : PoolConfig
deriving Repr, DecidableEq

/-- Function `NewPool` (pool.go lines 124-148): normalizes the configuration,
then builds the `pool` struct; `inputQ := make(chan Task,
cfg.LobbySize)` panics when the (un-normalized, untouched) `LobbySize`
is negative, which is modelled by `none`.  `workersQ` and `errCh` are
unbuffered and always succeed. -/
def NewPool (maxprocs : Int) (cfg : PoolConfig) : Option PoolState :=
  let cfg := normalizeConfig maxprocs cfg
  match makeChan cfg.LobbySize with
  | none => none
  | some buf =>
    some
      { inputQ := some buf
        workersQClosed := false
        errChClosed := false
        shutdownDone := false
        inQ := 0
        inFlight := 0
        inflightWG := 0
        cfg := cfg }

/-- Method `pool.Queue` (pool.go lines 173-181): `if p.inputQ != nil
{ p.inQ.Add(1); p.inFlight.Add(1); p.inflightWG.Add(1); p.inputQ <- t }`;
when the field is `nil` nothing at all happens. -/
def Queue (p : PoolState) (t : Nat) : PoolState :=
  match p.inputQ with
  | none => p
  | some buf =>
    { p with
      inQ := p.inQ + 1
      inFlight := p.inFlight + 1
      inflightWG := p.inflightWG + 1
      inputQ := some (buf ++ [t]) }

/-- The body of `p.shutdownOnce.Do` in `pool.Shutdown` (pool.go lines
185-193): close and nil out `inputQ`, wait for the in-flight waitgroup
(a blocking observation that changes no state), close `workersQ`, close
`errCh`. -/
def shutdownBody (p : PoolState) : PoolState :=
  { p with
    inputQ := none
    workersQClosed := true
    errChClosed := true }

/-- Method `pool.Shutdown` (pool.go lines 184-194): `sync.Once` runs the body
exactly on the first call; later calls return with no effect once the
body has completed. -/
def Shutdown (p : PoolState) : PoolState :=
  if p.shutdownDone then p
  else shutdownBody { p with shutdownDone := true }

/-! ## Small-step model of Run / lobby / Shutdown / Wait
(pool.go lines 150-170, 184-194, 207-212, 214-252)

`Wait` (pool.go lines 207-212) first acquires `p.inputLock` and then
waits on the in-flight waitgroup.  `Run` (line 164) acquires
`p.inputLock` before spawning the lobby goroutine, and that lock is
released only by the lobby goroutine (line 157), after its
`for task := range p.inputQ` loop has ended — which requires `inputQ`
to have been closed (`Shutdown`, line 186) and drained.  The transition
system below captures exactly this lock/counter discipline, with one
interleaved step per atomic action of the goroutines involved. -/

/-- Global state of the machine: the pool plus the control points of
the long-lived goroutines.  `lockHeld` is `p.inputLock` being held by
the `Run`/lobby critical section; `lobbyActive` means the lobby
goroutine's `range` loop is still running; `inputClosed` means
`close(p.inputQ)` has happened (after which `Queue` also sees a `nil`
field and is a no-op); `inputBuf` counts tasks buffered in `inputQ`;
`executing` counts tasks currently held by workers (between the
`workersQ` receive and the end of the loop body); `inFlight` is the
in-flight counter / waitgroup value. -/
structure MState where
  runCalled : Bool
  lockHeld : Bool
  lobbyActive : Bool
  inputClosed : Bool
  shutdownStarted : Bool
  shutdownFinished : Bool
  inputBuf : Nat
  executing : Nat
  inFlight : Nat
deriving Repr, DecidableEq

/-- The state of a freshly constructed pool (`NewPool` done, nothing
started). -/
def MState.initial : MState :=
  { runCalled := false
    lockHeld := false
    lobbyActive := false
    inputClosed := false
    shutdownStarted := false
    shutdownFinished := false
    inputBuf := 0
    executing := 0
    inFlight := 0 }

/-- The atomic steps of the pool's goroutines and API calls. -/
inductive Event where
  /-- Call `pool.Run` (pool.go lines 163-170): takes `p.inputLock`, spawns
  the lobby goroutine and the workers.  Callable once (pool.go line 83:
  "Must be called only once"). -/
  | run
  /-- Call `pool.Queue` on an open admission path (pool.go lines 175-180):
  increments `inQ`, `inFlight`, `inflightWG.Add(1)` and buffers the
  task. -/
  | queue
  /-- The lobby goroutine forwards one buffered task into the
  unbuffered `workersQ`, in rendezvous with a worker's receive
  (pool.go lines 152-154 with 217). -/
  | forward
  /-- A worker finishes a task with `err == nil` (pool.go lines
  246-249): `inflightWG.Done(); p.inFlight.Add(-1)`. -/
  | finishSuccess
  /-- A worker's failed task reaches the retry ceiling and the spawned
  goroutine completes the `errCh` handoff (pool.go lines 227-234):
  `inflightWG.Done(); p.inFlight.Add(-1)`. -/
  | finishErrored
  /-- A worker's failed task is resubmitted to `workersQ` by the
  spawned goroutine (pool.go lines 237-243) and picked up again by a
  worker: the task stays in flight and in execution. -/
  | retryTask
  /-- The lobby goroutine's `range` loop ends — possible only once
  `inputQ` is closed and drained — and it releases `p.inputLock`
  (pool.go lines 156-157). -/
  | lobbyExit
  /-- First phase of the unique `Shutdown` body (pool.go lines
  186-187): `close(p.inputQ); p.inputQ = nil`, guarded by
  `shutdownOnce`. -/
  | shutdownClose
  /-- Second phase of the `Shutdown` body (pool.go lines 189-192):
  after `p.inflightWG.Wait()` observes zero, `close(p.workersQ)` and
  `close(p.errCh)`. -/
  | shutdownFinish
deriving Repr, DecidableEq

/-- One interleaved step: `some s'` when the event's guard holds in
`s`, `none` when the event cannot fire in `s`. -/
def step (s : MState) : Event → Option MState
  | Event.run =>
    if s.runCalled then none
    else some { s with runCalled := true, lockHeld := true, lobbyActive := true }
  | Event.queue =>
    if s.inputClosed then none
    else some { s with inputBuf := s.inputBuf + 1, inFlight := s.inFlight + 1 }
  | Event.forward =>
    if s.lobbyActive ∧ 0 < s.inputBuf then
      some { s with inputBuf := s.inputBuf - 1, executing := s.executing + 1 }
    else none
  | Event.finishSuccess =>
    if 0 < s.executing ∧ 0 < s.inFlight then
      some { s with executing := s.executing - 1, inFlight := s.inFlight - 1 }
    else none
  | Event.finishErrored =>
    if 0 < s.executing ∧ 0 < s.inFlight then
      some { s with executing := s.executing - 1, inFlight := s.inFlight - 1 }
    else none
  | Event.retryTask =>
    if 0 < s.executing then some s else none
  | Event.lobbyExit =>
    if s.lobbyActive ∧ s.inputClosed ∧ s.inputBuf = 0 then
      some { s with lobbyActive := false, lockHeld := false }
    else none
  | Event.shutdownClose =>
    if s.shutdownStarted then none
    else some { s with shutdownStarted := true, inputClosed := true }
  | Event.shutdownFinish =>
    if s.shutdownStarted ∧ ¬s.shutdownFinished ∧ s.inFlight = 0 then
      some { s with shutdownFinished := true }
    else none

/-- States reachable from a fresh pool by interleaved steps. -/
inductive Reachable : MState → Prop
  | initial : Reachable MState.initial
  | step {s s' : MState} {e : Event} :
      Reachable s → step s e = some s' → Reachable s'

/-- Method `pool.Wait` (pool.go lines 207-212) performs `p.inputLock.Lock()`
and then `p.inflightWG.Wait()` (and changes no pool state).  It can
return in state `s` exactly when the lock is free and the in-flight
waitgroup counter is zero. -/
def WaitReturns (s : MState) : Prop :=
  s.lockHeld = false ∧ s.inFlight = 0

instance (s : MState) : Decidable (WaitReturns s) := by
  unfold WaitReturns; infer_instance

/-! ## Concrete states used to instantiate the theorems -/

/-- A freshly built pool state (what `NewPool` yields for
`{LobbySize: 0, Size: 2, Retries: 2}`). -/
def samplePool : PoolState :=
  { inputQ := some []
    workersQClosed := false
    errChClosed := false
    shutdownDone := false
    inQ := 0
    inFlight := 0
    inflightWG := 0
    cfg := { LobbySize := 0, Size := 2, Retries := 2 } }

/-- The machine state immediately after `pool.Run` on a fresh pool:
the lobby lock is held, no task admitted. -/
def afterRun : MState :=
  { runCalled := true
    lockHeld := true
    lobbyActive := true
    inputClosed := false
    shutdownStarted := false
    shutdownFinished := false
    inputBuf := 0
    executing := 0
    inFlight := 0 }

/-- State `afterRun` after the first phase of `Shutdown`
(`close(p.inputQ)`). -/
def afterShutdownClose : MState :=
  { afterRun with shutdownStarted := true, inputClosed := true }

/-- State `afterShutdownClose` after the lobby goroutine drains the closed
admission queue and releases `p.inputLock`. -/
def afterLobbyExit : MState :=
  { afterShutdownClose with lobbyActive := false, lockHeld := false }

/-! ## Helper lemmas -/

lemma errorCount_le_setError (t : TaskHeader ε) (e : Option ε) :
    t.ErrorCount ≤ (t.SetError e).ErrorCount := by
  cases e with
  | none => simp [TaskHeader.SetError, TaskHeader.ErrorCount]
  | some a =>
    simp only [TaskHeader.SetError, TaskHeader.ErrorCount, Option.isSome_some, if_pos]
    omega

lemma errorCount_le_foldl (l : List (Option ε)) :
    ∀ t : TaskHeader ε, t.ErrorCount ≤ (l.foldl TaskHeader.SetError t).ErrorCount := by
  induction l with
  | nil => intro t; simp
  | cons e l ih =>
    intro t
    exact le_trans (errorCount_le_setError t e) (ih (t.SetError e))

lemma normalizeConfig_LobbySize (maxprocs : Int) (cfg : PoolConfig) :
    (normalizeConfig maxprocs cfg).LobbySize = cfg.LobbySize := by
  simp only [normalizeConfig]
  split_ifs <;> rfl

/-! ## Claim theorems -/

/-- Claim C6: for every `TaskHeader` and every recorded error: `SetError`
with a non-nil error increments the error counter by one and makes that
error the last error; `SetError nil` sets the last error to nil and
leaves the counter unchanged; over any sequence of recordings the
counter is monotonically non-decreasing. -/
theorem setError_contract (ε : Type) (t : TaskHeader ε) (e : ε) (l : List (Option ε)) :
    (t.SetError (some e)).ErrorCount = t.ErrorCount + 1 ∧
    (t.SetError (some e)).Err = some e ∧
    (t.SetError none).Err = none ∧
    (t.SetError none).ErrorCount = t.ErrorCount ∧
    t.ErrorCount ≤ (l.foldl TaskHeader.SetError t).ErrorCount := by
  refine ⟨?_, rfl, rfl, ?_, errorCount_le_foldl l t⟩
  · simp [TaskHeader.SetError, TaskHeader.ErrorCount]
  · simp [TaskHeader.SetError, TaskHeader.ErrorCount]

/-- Claim C9: after any sequence of `SetError` calls, `Unwrap` returns
exactly the same value as `Err` (both read the `err` field, which is
`none` on a fresh `TaskHeader`). -/
theorem unwrap_eq_err (ε : Type) (t : TaskHeader ε) (l : List (Option ε)) :
    (l.foldl TaskHeader.SetError t).Unwrap = (l.foldl TaskHeader.SetError t).Err ∧
    (TaskHeader.new ε).Unwrap = none ∧ (TaskHeader.new ε).Err = none :=
  ⟨rfl, rfl, rfl⟩

/-- Claim C8: the configuration normalization of `NewPool` is deterministic
and error-free: `Size < 1` becomes `1`, `Size > 32 * maxprocs` is
clamped to `32 * maxprocs`, `Retries < -1` becomes `-1` (otherwise
`Retries` is kept), a `Size` already in range is kept, and `LobbySize`
is taken as given. -/
theorem newPool_normalization (maxprocs : Int) (hm : 1 ≤ maxprocs) (cfg : PoolConfig) :
    (cfg.Size < 1 → (normalizeConfig maxprocs cfg).Size = 1) ∧
    (cfg.Size > maxprocs * 32 → (normalizeConfig maxprocs cfg).Size = maxprocs * 32) ∧
    (1 ≤ cfg.Size ∧ cfg.Size ≤ maxprocs * 32 →
      (normalizeConfig maxprocs cfg).Size = cfg.Size) ∧
    (cfg.Retries < -1 → (normalizeConfig maxprocs cfg).Retries = -1) ∧
    (-1 ≤ cfg.Retries → (normalizeConfig maxprocs cfg).Retries = cfg.Retries) ∧
    (normalizeConfig maxprocs cfg).LobbySize = cfg.LobbySize := by
  refine ⟨?_, ?_, ?_, ?_, ?_, normalizeConfig_LobbySize maxprocs cfg⟩ <;>
    intro h <;> simp only [normalizeConfig] <;> split_ifs <;> simp_all <;> omega

/-- Witness for claim C8, concrete instance: `maxprocs = 1`,
`cfg = {LobbySize: 7, Size: 0, Retries: -5}`. -/
theorem newPool_normalization_witness :
    (normalizeConfig 1 { LobbySize := 7, Size := 0, Retries := -5 }).Size = 1 ∧
    (normalizeConfig 1 { LobbySize := 7, Size := 0, Retries := -5 }).Retries = -1 ∧
    (normalizeConfig 1 { LobbySize := 7, Size := 0, Retries := -5 }).LobbySize = 7 :=
  ⟨(newPool_normalization 1 (by decide) _).1 (by decide),
   (newPool_normalization 1 (by decide) _).2.2.2.1 (by decide),
   (newPool_normalization 1 (by decide) _).2.2.2.2.2⟩

/-- Claim C10: `NewPool` never validates `LobbySize`: for every
configuration with `LobbySize < 0`, construction panics in
`make(chan Task, cfg.LobbySize)` (modelled as `none`), while for
`LobbySize ≥ 0` it returns a pool whatever `Size` and `Retries` are
(those are clamped, not rejected). -/
theorem newPool_negative_lobby_panics (maxprocs : Int) (cfg : PoolConfig) :
    (cfg.LobbySize < 0 → NewPool maxprocs cfg = none) ∧
    (0 ≤ cfg.LobbySize →
      ∃ p, NewPool maxprocs cfg = some p ∧ p.cfg = normalizeConfig maxprocs cfg) := by
  constructor
  · intro h
    simp only [NewPool, makeChan, normalizeConfig_LobbySize]
    rw [if_pos h]
  · intro h
    simp only [NewPool, makeChan, normalizeConfig_LobbySize]
    rw [if_neg (by omega)]
    exact ⟨_, rfl, rfl⟩

/-- Witness for claim C10: `LobbySize = -1` panics; `LobbySize = 0` with
`Size = -3`, `Retries = -9` still constructs a pool. -/
theorem newPool_negative_lobby_panics_witness :
    NewPool 1 { LobbySize := -1, Size := 2, Retries := 0 } = none ∧
    ∃ p, NewPool 1 { LobbySize := 0, Size := -3, Retries := -9 } = some p ∧
      p.cfg = normalizeConfig 1 { LobbySize := 0, Size := -3, Retries := -9 } :=
  ⟨(newPool_negative_lobby_panics 1 _).1 (by decide),
   (newPool_negative_lobby_panics 1 _).2 (by decide)⟩

lemma shutdown_shutdownDone (p : PoolState) : (Shutdown p).shutdownDone = true := by
  unfold Shutdown
  split
  · assumption
  · rfl

lemma shutdown_idem (p : PoolState) : Shutdown (Shutdown p) = Shutdown p := by
  have h := shutdown_shutdownDone p
  rw [Shutdown, if_pos h]

lemma shutdown_iterate (p : PoolState) (n : Nat) (hn : 1 ≤ n) :
    Shutdown^[n] p = Shutdown p := by
  induction n with
  | zero => omega
  | succ m ih =>
    rcases Nat.eq_or_lt_of_le hn with h | h
    · rw [← h]; rfl
    · rw [Function.iterate_succ_apply', ih (by omega), shutdown_idem]

/-- Claim C5: `Shutdown` is idempotent: any number `n ≥ 1` of `Shutdown`
calls on a pool that has not yet shut down has exactly the effect of
one call, that one call runs the drain-and-close body (close and nil
the admission queue, wait on the in-flight waitgroup, close the
dispatch queue, close the error queue), and every call returns the
state with that single sequence completed. -/
theorem shutdown_idempotent (p : PoolState) (hp : p.shutdownDone = false) (n : Nat)
    (hn : 1 ≤ n) :
    Shutdown^[n] p = Shutdown p ∧
    Shutdown p = shutdownBody { p with shutdownDone := true } ∧
    (Shutdown p).inputQ = none ∧
    (Shutdown p).workersQClosed = true ∧
    (Shutdown p).errChClosed = true := by
  have hbody : Shutdown p = shutdownBody { p with shutdownDone := true } := by
    rw [Shutdown, if_neg (by simp [hp])]
  exact ⟨shutdown_iterate p n hn, hbody, by rw [hbody]; rfl, by rw [hbody]; rfl,
    by rw [hbody]; rfl⟩

/-- Witness for claim C5: three `Shutdown` calls on a sample pool equal
one. -/
theorem shutdown_idempotent_witness :
    Shutdown^[3] samplePool = Shutdown samplePool ∧
    Shutdown samplePool = shutdownBody { samplePool with shutdownDone := true } ∧
    (Shutdown samplePool).inputQ = none ∧
    (Shutdown samplePool).workersQClosed = true ∧
    (Shutdown samplePool).errChClosed = true :=
  shutdown_idempotent samplePool rfl 3 (by decide)

/-- Claim C7: after `Shutdown` has closed the admission path
(`p.inputQ = nil`), `Queue` is a silent no-op: the state, the
in-flight / in-queue counters and the waitgroup value are all exactly
unchanged and no error is raised (`Queue` is total). -/
theorem queue_after_shutdown_noop (p : PoolState) (t : Nat)
    (hp : p.shutdownDone = false) :
    Queue (Shutdown p) t = Shutdown p := by
  have h : (Shutdown p).inputQ = none := by
    rw [Shutdown, if_neg (by simp [hp])]; rfl
  rw [Queue, h]

/-- Witness for claim C7: queueing task `5` after shutting down the sample
pool changes nothing. -/
theorem queue_after_shutdown_noop_witness :
    Queue (Shutdown samplePool) 5 = Shutdown samplePool :=
  queue_after_shutdown_noop samplePool 5 rfl

lemma setError_some_eq (t : TaskHeader ε) (a : ε) :
    t.SetError (some a) = ⟨t.retries + 1, some a⟩ := by
  simp [TaskHeader.SetError]

lemma setError_none_eq (t : TaskHeader ε) :
    t.SetError none = ⟨t.retries, none⟩ := by
  simp [TaskHeader.SetError]

lemma runTask_alwaysFail (R : Int) (f : Nat → Option ε) (hf : ∀ n, (f n).isSome) :
    ∀ (fuel n : Nat) (t : TaskHeader ε), 1 ≤ fuel → R ≤ t.retries + fuel →
    ∃ e, runTaskFuel R f fuel n t
      = some (Outcome.errored ⟨max (t.retries + 1) R, some e⟩) := by
  intro fuel
  induction fuel with
  | zero => intro n t h _; omega
  | succ k ih =>
    intro n t _ hr
    obtain ⟨a, ha⟩ := Option.isSome_iff_exists.mp (hf n)
    simp only [runTaskFuel, ha, setError_some_eq]
    by_cases hc : R ≤ t.retries + 1
    · rw [if_pos (by simpa [TaskHeader.ErrorCount] using hc)]
      exact ⟨a, by rw [max_eq_left hc]⟩
    · rw [if_neg (by simpa [TaskHeader.ErrorCount] using hc)]
      have hk : 1 ≤ k := by omega
      obtain ⟨e, he⟩ := ih (n + 1) ⟨t.retries + 1, some a⟩ hk (by simp; omega)
      refine ⟨e, ?_⟩
      rw [he]
      have h1 : max (t.retries + 1 + 1) R = R := max_eq_right (by omega)
      have h2 : max (t.retries + 1) R = R := max_eq_right (by omega)
      simp only [h1, h2]

lemma runTask_failsThenSucceeds (R : Int) (f : Nat → Option ε) :
    ∀ (k fuel n : Nat) (t : TaskHeader ε),
    (∀ i, i < k → (f (n + i)).isSome) → f (n + k) = none →
    t.retries + k < R → k + 1 ≤ fuel →
    runTaskFuel R f fuel n t = some (Outcome.success ⟨t.retries + k, none⟩) := by
  intro k
  induction k with
  | zero =>
    intro fuel n t _ hs _ hfuel
    obtain ⟨m, rfl⟩ : ∃ m, fuel = m + 1 := ⟨fuel - 1, by omega⟩
    simp only [Nat.add_zero] at hs
    simp only [runTaskFuel, hs, setError_none_eq]
    norm_num
  | succ j ih =>
    intro fuel n t hfail hs hr hfuel
    obtain ⟨m, rfl⟩ : ∃ m, fuel = m + 1 := ⟨fuel - 1, by omega⟩
    obtain ⟨a, ha⟩ := Option.isSome_iff_exists.mp
      (by simpa using hfail 0 (by omega))
    simp only [runTaskFuel, ha, setError_some_eq]
    rw [if_neg (by simp [TaskHeader.ErrorCount]; omega)]
    have := ih m (n + 1) ⟨t.retries + 1, some a⟩
      (fun i hi => by
        have := hfail (i + 1) (by omega)
        simpa [Nat.add_assoc, Nat.add_comm 1 i] using this)
      (by
        have : n + 1 + j = n + (j + 1) := by omega
        rw [this, hs])
      (by simp; omega) (by omega)
    rw [this]
    have : (t.retries + 1) + (j : Int) = t.retries + (j + 1 : Nat) := by push_cast; ring
    rw [this]

/-- Claim C1 (amended): for a task whose user function always fails,
run with retry ceiling `R ≥ 0` and enough fuel, the worker loop
delivers the task to the error-output queue exactly once, with
recorded error count `max 1 R` — that is, after exactly 1 attempt for
`R = 0` and after exactly `R` attempts (one initial attempt plus
`R - 1` retries) for `R ≥ 1`.  The original claim's error count
`R + 1` holds only for `R = 0`. -/
theorem always_fail_delivery (R : Int) (hR : 0 ≤ R) (ε : Type) (f : Nat → Option ε)
    (hf : ∀ n, (f n).isSome) (fuel : Nat) (hfuel : R.toNat + 1 ≤ fuel) :
    ∃ e, runTaskFuel R f fuel 0 (TaskHeader.new ε)
      = some (Outcome.errored ⟨max 1 R, some e⟩) := by
  obtain ⟨e, he⟩ := runTask_alwaysFail R f hf fuel 0 (TaskHeader.new ε)
    (by omega) (by show R ≤ 0 + (fuel : Int); omega)
  exact ⟨e, by simpa [TaskHeader.new] using he⟩

/-- Witness for claim C1 (amended): `R = 2`, an always-failing user
function, fuel 3: delivered with error count `max 1 2 = 2`. -/
theorem always_fail_delivery_witness :
    ∃ e, runTaskFuel 2 (fun _ => some (0 : Nat)) 3 0 (TaskHeader.new Nat)
      = some (Outcome.errored ⟨max 1 2, some e⟩) :=
  always_fail_delivery 2 (by decide) Nat (fun _ => some 0) (fun _ => rfl) 3 (by decide)

/-- Counterexample to claim C1 as stated: with retry ceiling `R = 1`
(`R ≥ 0`) and an always-failing user function, the task is delivered to
the error queue with recorded error count `1`, not `R + 1 = 2`. -/
theorem always_fail_delivery_counterexample :
    runTaskFuel 1 (fun _ => some (0 : Nat)) 5 0 (TaskHeader.new Nat)
      = some (Outcome.errored { retries := 1, err := some 0 }) ∧
    (1 : Int) ≠ 1 + 1 := by decide

/-- Claim C2 (amended): for a task whose user function fails exactly
`K` times and then succeeds, run with retry ceiling `R ≥ K + 1`
(strictly greater than `K`; the original claim's `R ≥ K` fails at
`R = K`), the worker loop ends with terminal success — the task is
never delivered to the error-output queue — and the recorded error
count at success is exactly `K`. -/
theorem fails_then_succeeds (K : Nat) (R : Int) (hR : (K : Int) + 1 ≤ R) (ε : Type)
    (f : Nat → Option ε) (hfail : ∀ i, i < K → (f i).isSome) (hsucc : f K = none)
    (fuel : Nat) (hfuel : K + 1 ≤ fuel) :
    runTaskFuel R f fuel 0 (TaskHeader.new ε)
      = some (Outcome.success ⟨(K : Int), none⟩) := by
  have := runTask_failsThenSucceeds R f K fuel 0 (TaskHeader.new ε)
    (fun i hi => by simpa using hfail i hi) (by simpa using hsucc)
    (by show (0 : Int) + K < R; omega) hfuel
  simpa [TaskHeader.new] using this

/-- Witness for claim C2 (amended): `K = 2` failures then success,
ceiling `R = 3 ≥ K + 1`: terminal success with error count 2. -/
theorem fails_then_succeeds_witness :
    runTaskFuel 3 (fun n => if n < 2 then some (0 : Nat) else none) 3 0 (TaskHeader.new Nat)
      = some (Outcome.success ⟨(2 : Int), none⟩) :=
  fails_then_succeeds 2 3 (by decide) Nat (fun n => if n < 2 then some 0 else none)
    (fun i hi => by simp [hi]) (by simp) 3 (by decide)

/-- Counterexample to claim C2 as stated: a user function that fails
exactly `K = 1` time and then succeeds (`f 0` fails, `f n` succeeds for
`n ≥ 1`), run with retry ceiling `R = 1 ≥ K`, is delivered to the
error-output queue after its first failure (error count `1 ≥ 1`)
instead of being retried to success. -/
theorem fails_then_succeeds_counterexample :
    runTaskFuel 1 (fun n => if n = 0 then some (0 : Nat) else none) 5 0 (TaskHeader.new Nat)
      = some (Outcome.errored { retries := 1, err := some 0 }) := by decide

/-- Claim C3 (code bug): `NewPool` normalizes `Retries < -1` to `-1`,
but the worker's terminal test `task.ErrorCount() >= p.cfg.Retries`
is true for every positive error count when `Retries = -1`, so a task
whose user function fails is delivered to the error-output queue after
its very first failure — it is never resubmitted, the opposite of the
documented "retry forever" semantics of `-1`. -/
theorem retries_neg_one_fails_immediately :
    (normalizeConfig 1 { LobbySize := 0, Size := 1, Retries := -5 }).Retries = -1 ∧
    runTaskFuel (-1) (fun _ => some (0 : Nat)) 5 0 (TaskHeader.new Nat)
      = some (Outcome.errored { retries := 1, err := some 0 }) := by decide

lemma step_preserves_lockInv {s s' : MState} {e : Event} (h : step s e = some s')
    (inv : s.runCalled = true → s.inputClosed = false → s.lockHeld = true) :
    s'.runCalled = true → s'.inputClosed = false → s'.lockHeld = true := by
  cases e <;> simp only [step] at h <;> split_ifs at h <;>
    first
      | exact Option.noConfusion h
      | (obtain rfl := Option.some.inj h; simp_all)

lemma reachable_lockInv (s : MState) (h : Reachable s) :
    s.runCalled = true → s.inputClosed = false → s.lockHeld = true := by
  induction h with
  | initial => intro h _; simp [MState.initial] at h
  | step hr hstep ih => exact step_preserves_lockInv hstep ih

/-- Claim C4 (amended): `Wait` blocks first on `p.inputLock` and then
on the in-flight waitgroup, and closes nothing itself.  `Run` acquires
that lock and only the lobby goroutine releases it, after the admission
queue has been closed (which only `Shutdown` does) and drained.  Hence
in every reachable state after `Run`, if `Wait` can return then the
admission queue is already closed and the in-flight counter is zero —
`Wait` does not return merely because the in-flight counter reached
zero, contrary to the original claim. -/
theorem wait_requires_input_closed (s : MState) (hreach : Reachable s)
    (hrun : s.runCalled = true) (hw : WaitReturns s) :
    s.inputClosed = true ∧ s.inFlight = 0 := by
  obtain ⟨hlock, hfl⟩ := hw
  refine ⟨?_, hfl⟩
  by_contra hc
  have hheld := reachable_lockInv s hreach hrun (by simpa using hc)
  rw [hheld] at hlock
  exact absurd hlock (by simp)

/-- Witness for claim C4 (amended): in the reachable state reached by
`Run`, then `Shutdown`'s close of the admission queue, then the lobby
goroutine's exit, `Wait` can return, and indeed the admission queue is
closed there with zero in-flight tasks. -/
theorem wait_requires_input_closed_witness :
    afterLobbyExit.inputClosed = true ∧ afterLobbyExit.inFlight = 0 :=
  wait_requires_input_closed afterLobbyExit
    (@Reachable.step afterShutdownClose afterLobbyExit Event.lobbyExit
      (@Reachable.step afterRun afterShutdownClose Event.shutdownClose
        (@Reachable.step MState.initial afterRun Event.run Reachable.initial (by decide))
        (by decide))
      (by decide))
    rfl (by decide)

/-- Counterexample to claim C4 as stated: immediately after `Run` on a
fresh pool every admitted task (there are none) has reached a terminal
outcome and the in-flight counter is zero, `Shutdown` has not been
called, yet `Wait` cannot return: `Run` still holds `p.inputLock`. -/
theorem wait_not_returning_counterexample :
    Reachable afterRun ∧ afterRun.runCalled = true ∧ afterRun.inFlight = 0 ∧
    afterRun.shutdownStarted = false ∧ ¬ WaitReturns afterRun :=
  ⟨@Reachable.step MState.initial afterRun Event.run Reachable.initial (by decide),
   rfl, rfl, rfl, by decide⟩

end Proletarian
